import Mathlib

/-!
Shallow embedding of the heudiconv dbic_bids heuristic
(`heuristics/dbic_bids.py`, with the `SeqInfo` record from
`heudiconv/utils.py`) and proofs about it.

Conventions of the embedding:
* Python strings are Lean `String`s; all manipulation is done on the
  underlying `List Char` via hand-rolled helpers mirroring the Python
  string methods used by the source (`split`, `translate`, `replace`,
  `lower`, `isdigit`, `%02d`/`%06d` formatting).
* Python exceptions are modelled with `Except PyErr`; `assert` raises
  `PyErr.assertionError`, `dict[missing]` raises `PyErr.keyError`,
  `list[out-of-range]` raises `PyErr.indexError`, and so on.
* The source runs under Python 2 (`str.translate(None, chars)` signature),
  so `filter(bool, markers)` materialises a list; the embedding uses
  `List.filter` accordingly.
* `md5sum` (a thin wrapper over the external `hashlib` library) is treated
  as a parameter `md5sum : String → String` of every function that hashes;
  the source only ever compares its output against hard-coded hex digests.
* Parsed-protocol dictionaries have a fixed key set
  (seqtype/seqtype_label/session/run/task/acq/bids), so they are modelled
  as a record of `Option String` fields; an absent key is `none`.
-/

deriving instance DecidableEq for Except

namespace Heudiconv

/-- Python exception kinds raised by the embedded code paths. -/
inductive PyErr where
  | indexError
  | keyError
  | valueError
  | assertionError
  | runtimeError
  | notImplementedError
deriving DecidableEq, Repr

/-! ### Character and string helpers mirroring the Python string methods -/

/-- ASCII lower-casing of one character, as `str.lower` does on the
subject ids handled by `fixup_subjectid`. -/
def lowerChar (c : Char) : Char :=
  if 65 ≤ c.toNat ∧ c.toNat ≤ 90 then Char.ofNat (c.toNat + 32) else c

/-- Decision of `str.isdigit` for a single ASCII character. -/
def isDigitChar (c : Char) : Bool :=
  decide (48 ≤ c.toNat ∧ c.toNat ≤ 57)

/-- Numeric value of a decimal digit character. -/
def digitVal (c : Char) : Nat := c.toNat - 48

/-- Python `int(...)` on a string of decimal digits. -/
def digitsToNat (cs : List Char) : Nat :=
  cs.foldl (fun a c => a * 10 + digitVal c) 0

/-- Decimal digit character for a value below ten. -/
def digitChar : Nat → Char
  | 0 => '0'
  | 1 => '1'
  | 2 => '2'
  | 3 => '3'
  | 4 => '4'
  | 5 => '5'
  | 6 => '6'
  | 7 => '7'
  | 8 => '8'
  | _ => '9'

/-- Fuel-driven decimal rendering; `natToDecAux fuel n` is the decimal
digit list of `n` whenever `n ≤ fuel` (empty for `n = 0`, zero padding is
added separately as Python's `%0Nd` does). -/
def natToDecAux : Nat → Nat → List Char
  | 0, _ => []
  | fuel + 1, n => if n = 0 then [] else natToDecAux fuel (n / 10) ++ [digitChar (n % 10)]

/-- Decimal digit list of a natural number (empty for zero). -/
def natToDec (n : Nat) : List Char := natToDecAux n n

/-- Left zero-padding to width `w`, as in Python `%0Nd` formatting. -/
def padZeros (w : Nat) (ds : List Char) : List Char :=
  List.replicate (w - ds.length) '0' ++ ds

/-- Python `"%02d" % n`. -/
def fmtTwoDigit (n : Nat) : String := (padZeros 2 (natToDec n)).asString

/-- Python `"%06d" % n`. -/
def fmtSixDigit (n : Nat) : String := (padZeros 6 (natToDec n)).asString

/-- Helper for `str.split(sep)` (no maxsplit): accumulates the current
field in reverse. -/
def splitOnCharAux (sep : Char) : List Char → List Char → List (List Char)
  | [], acc => [acc.reverse]
  | c :: rest, acc =>
    if c = sep then acc.reverse :: splitOnCharAux sep rest []
    else splitOnCharAux sep rest (c :: acc)

/-- Python `s.split(sep)` on characters; always returns at least one field. -/
def splitOnChar (sep : Char) (cs : List Char) : List (List Char) :=
  splitOnCharAux sep cs []

/-- Helper for `str.split(sep, 1)` / `re.split(alt, s, 1)`: splits at the
first character satisfying `isSep`. -/
def pySplitOnceAux (isSep : Char → Bool) : List Char → List Char → List Char × Option (List Char)
  | [], acc => (acc.reverse, none)
  | c :: rest, acc =>
    if isSep c then (acc.reverse, some rest)
    else pySplitOnceAux isSep rest (c :: acc)

/-- Python `s.split(sep, 1)` generalised to a separator predicate: the part
before the first separator, and (when a separator occurs) the part after. -/
def pySplitOnce (isSep : Char → Bool) (cs : List Char) : List Char × Option (List Char) :=
  pySplitOnceAux isSep cs []

/-- Helper for truncation at the first `"__"`. -/
def cutDoubleUnderscoreAux : List Char → List Char → List Char
  | '_' :: '_' :: _, acc => acc.reverse
  | c :: rest, acc => cutDoubleUnderscoreAux rest (c :: acc)
  | [], acc => acc.reverse

/-- Python `s.split('__', 1)[0]` (dbic_bids.py line 459). -/
def cutDoubleUnderscore (s : String) : String :=
  (cutDoubleUnderscoreAux s.toList []).asString

/-- Helper for Python's substring containment test `pat in s`. -/
def containsSubAux (pat : List Char) : List Char → Bool
  | [] => List.isPrefixOf pat []
  | c :: rest => List.isPrefixOf pat (c :: rest) || containsSubAux pat rest

/-- Python `pat in s` on strings. -/
def containsSub (pat s : String) : Bool := containsSubAux pat.toList s.toList

/-- Python `s.startswith(pat)`. -/
def startsWithStr (pat s : String) : Bool := List.isPrefixOf pat.toList s.toList

/-- Python `sep.join(parts)`. -/
def strJoin (sep : String) (parts : List String) : String :=
  match parts with
  | [] => ""
  | p :: rest => rest.foldl (fun acc q => acc ++ sep ++ q) p

/-- Python `os.path.join(...)` for the relative path pieces used by
`create_key`: empty components contribute nothing on the left. -/
def joinPath (parts : List String) : String :=
  parts.foldl (fun acc p => if acc = "" then p else acc ++ "/" ++ p) ""

/-- Characters deleted by `sanitize_str` (dbic_bids.py line 449). -/
def sanitizeChars : List Char := "#!@$%^&.,:;_-".toList

/-- `sanitize_str` (dbic_bids.py lines 447-449): remove illegal characters
for BIDS from task/acq/etc values, `value.translate(None, '#!@$%^&.,:;_-')`
in the Python 2 sense. -/
def sanitize_str (value : String) : String :=
  (value.toList.filter (fun c => !(sanitizeChars.contains c))).asString

/-- Python `str(value)` for an optional string (`str(None) = "None"`). -/
def pyStrOpt : Option String → String
  | none => "None"
  | some s => s

/-- The `value.replace('_', 'X').replace('-', 'X')` step of
`parse_dbic_protocol_name` (dbic_bids.py line 504). -/
def replaceSepX (s : String) : String :=
  (s.toList.map (fun c => if c = '_' then 'X' else if c = '-' then 'X' else c)).asString

/-! ### The parsed-protocol dictionary -/

/-- The dictionary built by `parse_dbic_protocol_name`: its key set is
fixed, so it is a record of optional fields; `none` means the key is
absent.  The all-`none` record is the empty dict `{}` meaning "not
classifiable". -/
structure ParsedProtocol where
  seqtype : Option String := none
  seqtype_label : Option String := none
  session : Option String := none
  run : Option String := none
  task : Option String := none
  acq : Option String := none
  bids : Option String := none
deriving DecidableEq, Repr

/-- Python truthiness of the dict (`if not regd`): true iff no key is set. -/
def regdIsEmpty (r : ParsedProtocol) : Bool :=
  r.seqtype.isNone && r.seqtype_label.isNone && r.session.isNone &&
    r.run.isNone && r.task.isNone && r.acq.isNone && r.bids.isNone

/-- Dict assignment `regd[key] = v` for the four renamed value keys stored
by the token loop (dbic_bids.py line 508). -/
def regdSet (r : ParsedProtocol) (key : String) (v : String) : ParsedProtocol :=
  if key = "session" then { r with session := some v }
  else if key = "run" then { r with run := some v }
  else if key = "task" then { r with task := some v }
  else if key = "acq" then { r with acq := some v }
  else r

/-- `split2` (dbic_bids.py lines 476-480): split on the first `-` if
present, otherwise return the token with `None`. -/
def split2 (s : List Char) : List Char × Option (List Char) :=
  pySplitOnce (· == '-') s

/-- One iteration of the token loop of `parse_dbic_protocol_name`
(dbic_bids.py lines 496-510).  The accumulator carries the dict and the
`bids_leftovers` list; `key[-1]` on an empty key raises `IndexError`. -/
def processToken (acc : ParsedProtocol × List (List Char)) (tok : List Char) :
    Except PyErr (ParsedProtocol × List (List Char)) :=
  let kv0 := split2 tok
  let kv : Except PyErr (List Char × Option (List Char)) :=
    match kv0.2 with
    | some v => .ok (kv0.1, some v)
    | none =>
      match kv0.1.getLast? with
      | none => .error .indexError
      | some c => if c = '+' ∨ c = '=' then .ok (kv0.1.dropLast, some [c]) else .ok (kv0.1, none)
  match kv with
  | .error e => .error e
  | .ok (key, value) =>
    let value1 := replaceSepX (pyStrOpt (value.map List.asString))
    let keyS := key.asString
    if keyS = "ses" ∨ keyS = "run" ∨ keyS = "task" ∨ keyS = "acq" then
      .ok (regdSet acc.1 (if keyS = "ses" then "session" else keyS) (sanitize_str value1), acc.2)
    else
      .ok (acc.1, acc.2 ++ [tok])

/-- Folds `processToken` over the tokens after the first
(dbic_bids.py line 496). -/
def processTokens : ParsedProtocol × List (List Char) → List (List Char) →
    Except PyErr (ParsedProtocol × List (List Char))
  | acc, [] => .ok acc
  | acc, t :: rest =>
    match processToken acc t with
    | .error e => .error e
    | .ok acc1 => processTokens acc1 rest

/-- Body of `parse_dbic_protocol_name` after the `__` truncation
(dbic_bids.py lines 461-525).  The `bids` tag flag only gates a warning in
the source, so it has no output effect here; dropping the `bids` token and
then indexing `split[0]` on an empty remainder raises `IndexError`. -/
def parse_core (s : String) : Except PyErr ParsedProtocol :=
  match splitOnChar '_' s.toList with
  | [] => .error .indexError
  | tok0 :: restToks =>
    let fixed := if tok0 = "scout".toList then "anat-scout".toList else tok0
    let pref0 := fixed
    let pref1 :=
      if pref0 ≠ "bids".toList ∧ pref0.contains '-' then (pySplitOnce (· == '-') pref0).1
      else pref0
    let afterBids : Except PyErr (List Char × List (List Char)) :=
      if pref1 = "bids".toList then
        match restToks with
        | [] => .error .indexError
        | t :: ts => .ok (t, ts)
      else .ok (fixed, restToks)
    match afterBids with
    | .error e => .error e
    | .ok (firstTok, laterToks) =>
      let st := split2 firstTok
      let seqtype := st.1.asString
      if seqtype ∈ (["anat", "func", "dwi", "behav", "fmap"] : List String) then
        let regd0 : ParsedProtocol := { seqtype := some seqtype }
        let regd1 :=
          match st.2 with
          | some l => if l ≠ [] then { regd0 with seqtype_label := some l.asString } else regd0
          | none => regd0
        match processTokens (regd1, []) laterToks with
        | .error e => .error e
        | .ok acc =>
          .ok (if acc.2 ≠ [] then { acc.1 with bids := some (strJoin "_" (acc.2.map List.asString)) } else acc.1)
      else .ok {}

/-- `parse_dbic_protocol_name` (dbic_bids.py lines 452-525): truncate at
the first `__`, then parse the remainder. -/
def parse_dbic_protocol_name (protocol_name : String) : Except PyErr ParsedProtocol :=
  parse_core (cutDoubleUnderscore protocol_name)

/-! ### Subject-id normalisation -/

/-- The `re.sub('[-_]', '', s)` fallback of `fixup_subjectid`. -/
def stripSeps (cs : List Char) : List Char :=
  cs.filter (fun c => !(c == '-' || c == '_'))

/-- Decision of `re.match("sid0*(\\d+)$", s)` together with the integer
value of the matched digits (leading zeros do not change the value). -/
def sidMatch : List Char → Option Nat
  | 's' :: 'i' :: 'd' :: rest =>
    if rest ≠ [] ∧ rest.all isDigitChar then some (digitsToNat rest) else none
  | _ => none

/-- `fixup_subjectid` (dbic_bids.py lines 528-537): lower-case, then either
re-render a `sid`+digits id with six-digit zero padding, or strip `-`/`_`. -/
def fixup_subjectid (subjectid : String) : String :=
  let low := subjectid.toList.map lowerChar
  match sidMatch low with
  | some n => "sid" ++ fmtSixDigit n
  | none => (stripSeps low).asString

/-! ### The series descriptor and batch-level uniqueness check -/

/-- The fields of the `SeqInfo` named tuple (heudiconv/utils.py lines 8-32)
that the dbic_bids heuristic reads.  `image_type` is the DICOM image-type
tuple; the heuristic indexes it at position 2. -/
structure SeqInfo where
  series_id : String
  accession_number : String
  patient_id : String
  study_description : String
  protocol_name : String
  series_description : String
  image_type : List String
  is_derived : Bool
deriving DecidableEq, Repr

/-- `get_unique` (dbic_bids.py lines 365-374): collect the attribute into a
set, `assert` it has exactly one element and return it. -/
def get_unique (seqinfos : List SeqInfo) (attr : SeqInfo → String) : Except PyErr String :=
  match (seqinfos.map attr).dedup with
  | [v] => .ok v
  | _ => .error .assertionError

/-! ### The static correction tables (dbic_bids.py lines 12-64) -/

/-- `fix_accession2run`: accession number to bad-run patterns. -/
def fix_accession2run : List (String × List String) :=
  [("A000005", ["^1-"]),
   ("A000035", ["^8-", "^9-"]),
   ("A000067", ["^9-"]),
   ("A000072", ["^5-"]),
   ("A000081", ["^5-"]),
   ("A000082", ["^5-"]),
   ("A000088", ["^9-"]),
   ("A000090", ["^5-"])]

/-- `protocols2fix`: md5 of the study description to the ordered
(pattern, substitution) pairs. -/
def protocols2fix : List (String × List (String × String)) :=
  [("9d148e2a05f782273f6343507733309d",
    [("anat_", "anat-"),
     ("run-life[0-9]", "run+_task-life"),
     ("scout_run\\+", "scout"),
     ("T2w", "T2w_run+"),
     ("AAHead_Scout_32ch-head-coil", "anat-scout"),
     ("MPRAGE", "anat-T1w_acq-MPRAGE_run+"),
     ("gre_field_mapping_2mm", "fmap_run+_acq-2mm"),
     ("gre_field_mapping_3mm", "fmap_run+_acq-3mm"),
     ("epi_bold_sms_p2_s4_2mm_life1_748", "func_run+_task-life_acq-2mm748"),
     ("epi_bold_sms_p2_s4_2mm_life2_692", "func_run+_task-life_acq-2mm692"),
     ("epi_bold_sms_p2_s4_2mm_life3_754", "func_run+_task-life_acq-2mm754"),
     ("epi_bold_sms_p2_s4_2mm_life4_824", "func_run+_task-life_acq-2mm824"),
     ("epi_bold_p2_3mm_nofs_life1_374", "func_run+_task-life_acq-3mmnofs374"),
     ("epi_bold_p2_3mm_nofs_life2_346", "func_run+_task-life_acq-3mmnofs346"),
     ("epi_bold_p2_3mm_nofs_life3_377", "func_run+_task-life_acq-3mmnofs377"),
     ("epi_bold_p2_3mm_nofs_life4_412", "func_run+_task-life_acq-3mmnofs412"),
     ("t2_space_sag_p4_iso", "anat-T2w_run+"),
     ("gre_field_mapping_2.4mm", "fmap_run+_acq-2.4mm"),
     ("rest_p2_sms4_2.4mm_64sl_1000tr_32te_600dyn",
      "func_run+_task-rest_acq-2.4mm64sl1000tr32te600dyn"),
     ("DTI_30", "dwi_run+_acq-30"),
     ("t1_space_sag_p2_iso", "anat-T1w_acq-060mm_run+")]),
   ("76b36c80231b0afaf509e2d52046e964",
    [("fmap_run\\+_2mm", "fmap_run+_acq-2mm")]),
   ("c6d8fbccc72990bee61d28e73b2618a4",
    [("run=", "run+")])]

/-! ### A small matcher for the fixed-length regular expressions used by
the correction tables (literals, `.`, the class `[0-9]`, escaped
characters, and a leading `^` anchor; no quantifiers occur). -/

/-- One compiled regex token. -/
inductive RTok where
  | lit (c : Char)
  | anyChar
  | digitCls
  | caret
deriving DecidableEq, Repr

/-- Compiles a table pattern into tokens. -/
def compilePat : List Char → List RTok
  | [] => []
  | '\\' :: c :: rest => .lit c :: compilePat rest
  | '[' :: '0' :: '-' :: '9' :: ']' :: rest => .digitCls :: compilePat rest
  | '^' :: rest => .caret :: compilePat rest
  | '.' :: rest => .anyChar :: compilePat rest
  | c :: rest => .lit c :: compilePat rest

/-- Matches the token list against a prefix of the input; `atStart` records
whether the current position is the start of the whole string (for `^`).
Returns the remaining input on success. -/
def matchToks : List RTok → List Char → Bool → Option (List Char)
  | [], cs, _ => some cs
  | .caret :: ts, cs, atStart => if atStart then matchToks ts cs atStart else none
  | _ :: _, [], _ => none
  | .lit c :: ts, x :: xs, _ => if x = c then matchToks ts xs false else none
  | .digitCls :: ts, x :: xs, _ => if isDigitChar x then matchToks ts xs false else none
  | .anyChar :: ts, _ :: xs, _ => matchToks ts xs false

/-- Left-to-right scan of `re.sub`, fuelled by the input length (every
table pattern consumes at least one character per match). -/
def reSubGo (toks : List RTok) (rep : List Char) : Nat → List Char → Bool → List Char
  | 0, cs, _ => cs
  | _ + 1, [], _ => []
  | fuel + 1, c :: cs, atStart =>
    match matchToks toks (c :: cs) atStart with
    | some rest => rep ++ reSubGo toks rep fuel rest false
    | none => c :: reSubGo toks rep fuel cs false

/-- `re.sub(pat, rep, v)` for the table patterns. -/
def reSub (pat rep v : String) : String :=
  (reSubGo (compilePat pat.toList) rep.toList (v.toList.length + 1) v.toList true).asString

/-- `re.match(pat, s)` viewed as a Boolean (anchored at the start). -/
def reMatchStart (pat s : String) : Bool :=
  (matchToks (compilePat pat.toList) s.toList true).isSome

/-! ### The fixup engine (dbic_bids.py lines 129-169) -/

/-- `fix_canceled_runs` (dbic_bids.py lines 129-142): for the batch's
unique accession number, prepend `cancelme_` to the protocol name and
series description of every series whose id matches one of the listed
patterns (`re.match` over their alternation). -/
def fix_canceled_runs (seqinfo : List SeqInfo)
    (accession2run : List (String × List String) := fix_accession2run) :
    Except PyErr (List SeqInfo) :=
  match get_unique seqinfo (fun s => s.accession_number) with
  | .error e => .error e
  | .ok accession =>
    match accession2run.lookup accession with
    | none => .ok seqinfo
    | some badruns =>
      .ok (seqinfo.map (fun s =>
        if badruns.any (fun p => reMatchStart p s.series_id) then
          { s with protocol_name := "cancelme_" ++ s.protocol_name,
                   series_description := "cancelme_" ++ s.series_description }
        else s))

/-- Applies all substitutions of one table entry in order, cumulatively. -/
def applySubs (subs : List (String × String)) (v : String) : String :=
  subs.foldl (fun acc pr => reSub pr.1 pr.2 acc) v

/-- `fix_dbic_protocol` (dbic_bids.py lines 145-169): mark canceled runs,
then rewrite protocol name and series description (`keys2replace`) with the
substitutions keyed by the md5 of the unique study description; a hash
absent from the table raises `ValueError`. -/
def fix_dbic_protocol (md5sum : String → String) (seqinfo : List SeqInfo) :
    Except PyErr (List SeqInfo) :=
  match fix_canceled_runs seqinfo with
  | .error e => .error e
  | .ok seqinfo1 =>
    match get_unique seqinfo1 (fun s => s.study_description) with
    | .error e => .error e
    | .ok study_descr =>
      match protocols2fix.lookup (md5sum study_descr) with
      | none => .error .valueError
      | some subs =>
        .ok (seqinfo1.map (fun s =>
          { s with protocol_name := applySubs subs s.protocol_name,
                   series_description := applySubs subs s.series_description }))

/-! ### The sequence classifier `infotodict` (dbic_bids.py lines 175-362) -/

/-- The static image-type lookup (dbic_bids.py lines 215-224); advisory
only, used for a cross-check warning. -/
def image_type_seqtype_map (t : String) : Option String :=
  if t = "P" then some "fmap"
  else if t = "FMRI" then some "func"
  else if t = "MPR" then some "anat"
  else if t = "DIFFUSION" then some "dwi"
  else if t = "MIP_SAG" then some "anat"
  else if t = "MIP_COR" then some "anat"
  else if t = "MIP_TRA" then some "anat"
  else none

/-- The common protocol-name replacement (dbic_bids.py lines 226-229). -/
def tuneProtocolName (pn : String) : String :=
  if pn = "AAHead_Scout" then "anat-scout" else pn

/-- The fmap default-label dict lookup (dbic_bids.py lines 269-273);
defined only for `M` and `P`, otherwise `KeyError`. -/
def fmapDefaultLabel (t : String) : Except PyErr String :=
  if t = "M" then .ok "magnitude"
  else if t = "P" then .ok "phasediff"
  else .error .keyError

/-- The naming-template key returned by `create_key`
(dbic_bids.py lines 109-120). -/
structure Template where
  path : String
  outtype : List String
  ann_classes : Option String
deriving DecidableEq, Repr

/-- `create_key` (dbic_bids.py lines 109-120). -/
def create_key (subdir file_suffix : String) (pref : String := "") : Except PyErr Template :=
  if subdir = "" then .error .valueError
  else .ok { path := joinPath [pref, "{bids_subject_session_dir}", subdir,
                               "{bids_subject_session_prefix}_" ++ file_suffix],
             outtype := ["nii.gz", "dicom"],
             ann_classes := none }

/-- `defaultdict(list)` append `info[template].append(series_id)`,
preserving first-seen key order. -/
def appendInfo : List (Template × List String) → Template → String → List (Template × List String)
  | [], t, sid => [(t, [sid])]
  | (t1, ids) :: rest, t, sid =>
    if t1 = t then (t1, ids ++ [sid]) :: rest
    else (t1, ids) :: appendInfo rest t sid

/-- Loop-carried state of `infotodict` (dbic_bids.py lines 195-199).
`current_run` starts at 0 (Python's falsy unset value) and only ever holds
integers on the paths the source can reach. -/
structure ClassState where
  info : List (Template × List String)
  skipped : List String
  skipped_unknown : List String
  current_run : Nat
  image_data_type : Option String
deriving DecidableEq, Repr

/-- Initial classifier state. -/
def initClassState : ClassState :=
  { info := [], skipped := [], skipped_unknown := [], current_run := 0, image_data_type := none }

/-- The run-token transition (dbic_bids.py lines 279-317), producing the
new `current_run` and the rendered run label.  `+` on a phase image whose
predecessor was not a magnitude image raises `RuntimeError` unless the
series' study-description hash is the recognised legacy study, in which
case the run is incremented; a run token that is neither `+`, `=` nor a
digit string raises `ValueError`. -/
def run_token_update (md5sum : String → String) (image_data_type : String)
    (prev_image_data_type : Option String) (study_description : String)
    (current_run : Nat) (run : String) : Except PyErr (Nat × Option String) :=
  let newRun : Except PyErr Nat :=
    if run = "+" then
      if image_data_type = "P" then
        if prev_image_data_type ≠ some "M" then
          if md5sum study_description = "9d148e2a05f782273f6343507733309d" then
            .ok (current_run + 1)
          else .error .runtimeError
        else .ok current_run
      else .ok (current_run + 1)
    else if run = "=" then
      .ok (if current_run = 0 then 1 else current_run)
    else if run.toList ≠ [] ∧ run.toList.all isDigitChar then
      .ok (digitsToNat run.toList)
    else .error .valueError
  match newRun with
  | .error e => .error e
  | .ok cr => .ok (cr, some ("run-" ++ fmtTwoDigit cr))

/-- The `None if not regd.get(k) else "k-%s" % regd[k]` suffix parts
(dbic_bids.py lines 322-324): an absent or empty value contributes
nothing. -/
def taggedPart (tag : String) (v : Option String) : Option String :=
  match v with
  | some s => if s = "" then none else some (tag ++ s)
  | none => none

/-- `'_'.join(filter(bool, suffix_parts))` (dbic_bids.py line 330). -/
def joinSuffixParts (parts : List (Option String)) : String :=
  strJoin "_" ((parts.filterMap id).filter (fun s => s != ""))

/-- One iteration of the `for s in seqinfo` loop of `infotodict`
(dbic_bids.py lines 200-354).  Derived series are skipped before the
image-type state is updated; an unparseable protocol name records the
series as unknown; `regd.pop('seqtype')` on a dict missing that key raises
`KeyError` (reachable when the MIP acq injection made an empty parse
non-empty). -/
def infotodict_step (md5sum : String → String) (st : ClassState) (s : SeqInfo) :
    Except PyErr ClassState :=
  if s.is_derived then .ok { st with skipped := st.skipped ++ [s.series_id] }
  else
    match s.image_type.get? 2 with
    | none => .error .indexError
    | some image_data_type =>
      let prev := st.image_data_type
      let _guess := image_type_seqtype_map image_data_type
      let tuned := tuneProtocolName s.protocol_name
      match parse_dbic_protocol_name tuned with
      | .error e => .error e
      | .ok regd0 =>
        let regd :=
          if startsWithStr "MIP" image_data_type then
            { regd0 with acq := some ((regd0.acq.getD "") ++ sanitize_str image_data_type) }
          else regd0
        if regdIsEmpty regd then
          .ok { st with skipped_unknown := st.skipped_unknown ++ [s.series_id],
                        image_data_type := some image_data_type }
        else
          match regd.seqtype with
          | none => .error .keyError
          | some seqtype =>
            let lbl0 := regd.seqtype_label
            let lbl1 :=
              if seqtype = "func" ∧ lbl0 = none then
                some (if containsSub "_pace_" tuned then "pace" else "bold")
              else lbl0
            match (if seqtype = "fmap" ∧ lbl1 = none then
                     (fmapDefaultLabel image_data_type).map some
                   else .ok lbl1) with
            | .error e => .error e
            | .ok lbl2 =>
              let seqtype_label := if seqtype = "dwi" ∧ lbl2 = none then some "dwi" else lbl2
              match (match regd.run with
                     | none => Except.ok (st.current_run, (none : Option String))
                     | some r =>
                       run_token_update md5sum image_data_type prev s.study_description
                         st.current_run r) with
              | .error e => .error e
              | .ok (cr, run_label) =>
                let suffix := joinSuffixParts
                  [taggedPart "task-" regd.task, taggedPart "acq-" regd.acq,
                   regd.bids, run_label, seqtype_label]
                if containsSub "_Scout" s.series_description ∨
                    (seqtype = "anat" ∧ seqtype_label = some "scout") then
                  .ok { st with skipped := st.skipped ++ [s.series_id],
                                current_run := cr, image_data_type := some image_data_type }
                else
                  match create_key seqtype suffix with
                  | .error e => .error e
                  | .ok t =>
                    .ok { st with info := appendInfo st.info t s.series_id,
                                  current_run := cr, image_data_type := some image_data_type }

/-- The full `for s in seqinfo` loop. -/
def infotodict_loop (md5sum : String → String) : ClassState → List SeqInfo →
    Except PyErr ClassState
  | st, [] => .ok st
  | st, s :: rest =>
    match infotodict_step md5sum st s with
    | .error e => .error e
    | .ok st1 => infotodict_loop md5sum st1 rest

/-- `infotodict` (dbic_bids.py lines 175-362): apply the table-driven fixup
when the unique study description's hash is known, then classify every
series in order.  Returns the template mapping together with the skipped
and unrecognised series-id lists. -/
def infotodict (md5sum : String → String) (seqinfo : List SeqInfo) :
    Except PyErr (List (Template × List String) × List String × List String) :=
  match get_unique seqinfo (fun s => s.study_description) with
  | .error e => .error e
  | .ok study_description =>
    match (if (protocols2fix.lookup (md5sum study_description)).isSome then
             fix_dbic_protocol md5sum seqinfo
           else .ok seqinfo) with
    | .error e => .error e
    | .ok seqinfo1 =>
      match infotodict_loop md5sum initClassState seqinfo1 with
      | .error e => .error e
      | .ok st => .ok (st.info, st.skipped, st.skipped_unknown)

/-! ### The identity resolver `infotoids` (dbic_bids.py lines 380-444) -/

/-- The identity record (`StudySessionInfo`, heudiconv/utils.py
lines 34-47). -/
structure StudySessionInfo where
  locator : String
  session : Option String
  subject : String
deriving DecidableEq, Repr

/-- The session-marker collection of `infotoids` (dbic_bids.py
lines 401-404): `parse_dbic_protocol_name(s.protocol_name).get('session')`
for every non-derived series, in order. -/
def collect_ses_markers : List SeqInfo → Except PyErr (List (Option String))
  | [] => .ok []
  | s :: rest =>
    if s.is_derived then collect_ses_markers rest
    else
      match parse_dbic_protocol_name s.protocol_name with
      | .error e => .error e
      | .ok regd =>
        match collect_ses_markers rest with
        | .error e => .error e
        | .ok l => .ok (regd.session :: l)

/-- The session derivation of `infotoids` (dbic_bids.py lines 406-432),
applied to the materialised, truthiness-filtered marker list: no markers
leaves the session absent; explicit values mixed with `+`/`=` sigils raise
`NotImplementedError`; with explicit values present, the
`assert len(ses_markers) == 1` fails unless exactly one marker was
collected, and then that marker is used; sigil-only markers fall back to
the default label `001`. -/
def deduce_session (ses_markers : List String) : Except PyErr (Option String) :=
  if ses_markers = [] then .ok none
  else
    let nonsign_vals := ses_markers.dedup.filter (fun v => !(v == "+" || v == "="))
    if nonsign_vals ≠ [] then
      if ses_markers.any (fun v => v == "+" || v == "=") then .error .notImplementedError
      else if ses_markers.length = 1 then .ok ses_markers.head?
      else .error .assertionError
    else .ok (some "001")

/-- `infotoids` (dbic_bids.py lines 380-444).  The `outdir` argument of the
source is accepted and unused, exactly as there.  Under Python 2 the
`filter(bool, ses_markers)` is a materialised list, which this embedding
mirrors. -/
def infotoids (md5sum : String → String) (seqinfos : List SeqInfo) (_outdir : String) :
    Except PyErr StudySessionInfo :=
  match get_unique seqinfos (fun s => s.study_description) with
  | .error e => .error e
  | .ok study_description =>
    let study_description_hash := md5sum study_description
    match get_unique seqinfos (fun s => s.patient_id) with
    | .error e => .error e
    | .ok pid =>
      let subject := fixup_subjectid pid
      let sp0 := pySplitOnce (· == '^') study_description.toList
      let sp1 := pySplitOnce (fun c => c == '-' || c == '_') sp0.1
      let parts : List String :=
        ([sp1.1] ++ (match sp1.2 with | some t => [t] | none => [])
          ++ (match sp0.2 with | some t => [t] | none => [])).map List.asString
      let locator := strJoin "/" parts
      match collect_ses_markers seqinfos with
      | .error e => .error e
      | .ok markers0 =>
        let ses_markers := (markers0.filterMap id).filter (fun v => v != "")
        match deduce_session ses_markers with
        | .error e => .error e
        | .ok session0 =>
          let session :=
            if study_description_hash = "9d148e2a05f782273f6343507733309d" then some "siemens1"
            else session0
          .ok { locator := locator, session := session, subject := subject }

/-! ### Concrete batches used to instantiate the theorems below -/

/-- A non-derived series of a plain single-study batch with the given id
and protocol name. -/
def mkSeries (sid pn : String) : SeqInfo :=
  { series_id := sid, accession_number := "A1", patient_id := "sid30",
    study_description := "Hax^Study", protocol_name := pn, series_description := pn,
    image_type := ["ORIGINAL", "PRIMARY", "FMRI"], is_derived := false }

/-- The run-counter scenario batch: tokens `+`, `+`, `=`, `3`. -/
def runCounterBatch : List SeqInfo :=
  [mkSeries "01-f" "func_run+", mkSeries "02-f" "func_run+",
   mkSeries "03-f" "func_run=", mkSeries "04-f" "func_run-3"]

/-- A series whose image-type indicator is `MIP_SAG` and whose protocol
name is not classifiable. -/
def c4_series : SeqInfo :=
  { mkSeries "05-x" "somethingweird" with image_type := ["ORIGINAL", "PRIMARY", "MIP_SAG"] }

/-- An fmap series without an explicit seqtype label, on an `FMRI`
image-type indicator. -/
def c9_series : SeqInfo := mkSeries "06-f" "fmap_acq-g"

/-- The movable tokens of the reordering example of the specification. -/
def c7_tokens : List String := ["ses-1", "task-boo", "acq-bu", "bids-please", "run-2"]

/-- The expected parse of the reordering example. -/
def c7_expected : ParsedProtocol :=
  { seqtype := some "func", seqtype_label := some "pace", session := some "1",
    run := some "2", task := some "boo", acq := some "bu", bids := some "bids-please" }

/-! ## Theorems

First a stock of small lemmas about the character helpers, then one
theorem per claim (with witnesses and counterexamples where the claim's
status requires them). -/

theorem lowerChar_toNat_of_upper {c : Char} (h : 65 ≤ c.toNat ∧ c.toNat ≤ 90) :
    (lowerChar c).toNat = c.toNat + 32 := by
  have hlt : c.toNat + 32 < 55296 := by omega
  unfold lowerChar
  rw [if_pos h]
  show (Char.ofNat (c.toNat + 32)).toNat = c.toNat + 32
  unfold Char.ofNat
  rw [dif_pos (Or.inl hlt)]
  rfl

theorem lowerChar_eq_self {c : Char} (h : ¬(65 ≤ c.toNat ∧ c.toNat ≤ 90)) :
    lowerChar c = c := by
  unfold lowerChar
  rw [if_neg h]

theorem lowerChar_idem (c : Char) : lowerChar (lowerChar c) = lowerChar c := by
  by_cases h : 65 ≤ c.toNat ∧ c.toNat ≤ 90
  · have h1 := lowerChar_toNat_of_upper h
    exact lowerChar_eq_self (by rw [h1]; omega)
  · rw [lowerChar_eq_self h]
    exact lowerChar_eq_self h

theorem char_toNat_ne {c d : Char} (h : c.toNat ≠ d.toNat) : c ≠ d :=
  fun he => h (he ▸ rfl)

theorem lowerChar_beq_eq {d : Char} (hd1 : ¬(65 ≤ d.toNat ∧ d.toNat ≤ 90))
    (hd2 : ¬(97 ≤ d.toNat ∧ d.toNat ≤ 122)) (c : Char) :
    (lowerChar c == d) = (c == d) := by
  by_cases h : 65 ≤ c.toNat ∧ c.toNat ≤ 90
  · have h1 := lowerChar_toNat_of_upper h
    have e1 : lowerChar c ≠ d := char_toNat_ne (by omega)
    have e2 : c ≠ d := char_toNat_ne (by omega)
    simp [e1, e2]
  · rw [lowerChar_eq_self h]

theorem stripSeps_map_lowerChar (l : List Char) :
    stripSeps (l.map lowerChar) = (stripSeps l).map lowerChar := by
  unfold stripSeps
  rw [List.filter_map]
  congr 1
  apply List.filter_congr
  intro c _
  simp only [Function.comp_apply]
  rw [lowerChar_beq_eq (by decide) (by decide) c, lowerChar_beq_eq (by decide) (by decide) c]

theorem map_lowerChar_idem (l : List Char) :
    (l.map lowerChar).map lowerChar = l.map lowerChar := by
  rw [List.map_map]
  exact List.map_congr_left (fun c _ => lowerChar_idem c)

theorem stripSeps_idem (l : List Char) : stripSeps (stripSeps l) = stripSeps l := by
  induction l with
  | nil => rfl
  | cons c t ih =>
    unfold stripSeps at ih ⊢
    cases hb : (!(c == '-' || c == '_')) with
    | false =>
      rw [List.filter_cons, hb, if_neg Bool.false_ne_true]
      exact ih
    | true =>
      rw [List.filter_cons, hb, if_pos rfl, List.filter_cons, hb, if_pos rfl, ih]

theorem isDigitChar_range {c : Char} (h : isDigitChar c = true) :
    48 ≤ c.toNat ∧ c.toNat ≤ 57 := by
  unfold isDigitChar at h
  exact of_decide_eq_true h

theorem lowerChar_digit {c : Char} (h : isDigitChar c = true) : lowerChar c = c := by
  have := isDigitChar_range h
  exact lowerChar_eq_self (by omega)

theorem map_lowerChar_digits {l : List Char} (h : l.all isDigitChar = true) :
    l.map lowerChar = l := by
  induction l with
  | nil => rfl
  | cons c t ih =>
    rw [List.all_cons, Bool.and_eq_true] at h
    rw [List.map_cons, ih h.2, lowerChar_digit h.1]

theorem digitVal_digitChar {d : Nat} (h : d < 10) : digitVal (digitChar d) = d := by
  interval_cases d <;> decide

theorem isDigitChar_digitChar {d : Nat} (h : d < 10) : isDigitChar (digitChar d) = true := by
  interval_cases d <;> decide

theorem digitsToNat_append_single (l : List Char) (c : Char) :
    digitsToNat (l ++ [c]) = digitsToNat l * 10 + digitVal c := by
  simp [digitsToNat, List.foldl_append]

theorem natToDecAux_spec :
    ∀ fuel n, n ≤ fuel →
      digitsToNat (natToDecAux fuel n) = n ∧ (natToDecAux fuel n).all isDigitChar = true := by
  intro fuel
  induction fuel with
  | zero =>
    intro n hn
    interval_cases n
    exact ⟨rfl, rfl⟩
  | succ f ih =>
    intro n hn
    by_cases h0 : n = 0
    · subst h0
      exact ⟨rfl, rfl⟩
    · have hpos : 0 < n := Nat.pos_of_ne_zero h0
      have hdiv : n / 10 ≤ f := by
        have := Nat.div_lt_self hpos (by omega : 1 < 10)
        omega
      obtain ⟨ih1, ih2⟩ := ih (n / 10) hdiv
      unfold natToDecAux
      rw [if_neg h0]
      constructor
      · rw [digitsToNat_append_single, ih1, digitVal_digitChar (Nat.mod_lt n (by omega))]
        omega
      · rw [List.all_append, ih2, Bool.true_and, List.all_cons,
          isDigitChar_digitChar (Nat.mod_lt n (by omega))]
        rfl

theorem natToDec_val (n : Nat) : digitsToNat (natToDec n) = n :=
  (natToDecAux_spec n n le_rfl).1

theorem natToDec_digits (n : Nat) : (natToDec n).all isDigitChar = true :=
  (natToDecAux_spec n n le_rfl).2

theorem foldl_digit_zeros (k : Nat) :
    (List.replicate k '0').foldl (fun a c => a * 10 + digitVal c) 0 = 0 := by
  induction k with
  | zero => rfl
  | succ m ih =>
    rw [List.replicate_succ, List.foldl_cons]
    have h0 : (0 : Nat) * 10 + digitVal '0' = 0 := by decide
    rw [h0, ih]

theorem digitsToNat_padZeros (w : Nat) (ds : List Char) :
    digitsToNat (padZeros w ds) = digitsToNat ds := by
  unfold padZeros digitsToNat
  rw [List.foldl_append, foldl_digit_zeros]

theorem padZeros_all_digits {ds : List Char} (h : ds.all isDigitChar = true) (w : Nat) :
    (padZeros w ds).all isDigitChar = true := by
  unfold padZeros
  rw [List.all_append, h, Bool.and_true]
  rw [List.all_eq_true]
  intro c hc
  rw [List.eq_of_mem_replicate hc]
  decide

theorem padZeros_six_ne_nil (ds : List Char) : padZeros 6 ds ≠ [] := by
  unfold padZeros
  intro h
  have := congrArg List.length h
  simp only [List.length_append, List.length_replicate, List.length_nil] at this
  omega

theorem sidMatch_sid_digits {ds : List Char} (h1 : ds ≠ []) (h2 : ds.all isDigitChar = true) :
    sidMatch ('s' :: 'i' :: 'd' :: ds) = some (digitsToNat ds) := by
  show (if ds ≠ [] ∧ ds.all isDigitChar then some (digitsToNat ds) else none) = _
  rw [if_pos ⟨h1, h2⟩]

theorem fixup_subjectid_sid_form (n : Nat) :
    fixup_subjectid ("sid" ++ fmtSixDigit n) = "sid" ++ fmtSixDigit n := by
  have hdig : (natToDec n).all isDigitChar = true := natToDec_digits n
  have hd6 : (padZeros 6 (natToDec n)).all isDigitChar = true := padZeros_all_digits hdig 6
  have hne := padZeros_six_ne_nil (natToDec n)
  have htl : ("sid" ++ fmtSixDigit n).toList = 's' :: 'i' :: 'd' :: padZeros 6 (natToDec n) := by
    show ("sid" ++ (padZeros 6 (natToDec n)).asString).data = _
    rw [String.data_append]
    rfl
  have hmap : ('s' :: 'i' :: 'd' :: padZeros 6 (natToDec n)).map lowerChar
      = 's' :: 'i' :: 'd' :: padZeros 6 (natToDec n) := by
    simp only [List.map_cons]
    rw [map_lowerChar_digits hd6]
    rfl
  simp only [fixup_subjectid]
  rw [htl, hmap, sidMatch_sid_digits hne hd6, digitsToNat_padZeros, natToDec_val]

/-- C6 (counterexample): subject-id normalisation is not idempotent as
claimed: on `"sid-30"` the first pass only strips the hyphen, giving
`"sid30"`, and a second pass re-renders that to `"sid000030"`. -/
theorem c6_counterexample :
    fixup_subjectid "sid-30" = "sid30" ∧
    fixup_subjectid (fixup_subjectid "sid-30") = "sid000030" ∧
    fixup_subjectid (fixup_subjectid "sid-30") ≠ fixup_subjectid "sid-30" := by
  refine ⟨by decide, by decide, by decide⟩

/-- C6 (amended): subject-id normalisation is idempotent on every input
except those whose lower-cased form fails the `sid`+digits pattern while
their separator-stripped form matches it (such as `"sid-30"`); and the
specification's example values normalise exactly as stated. -/
theorem c6_fixup_subjectid_idempotent_amended :
    (∀ s : String,
      sidMatch (s.toList.map lowerChar) ≠ none ∨
        sidMatch (stripSeps (s.toList.map lowerChar)) = none →
      fixup_subjectid (fixup_subjectid s) = fixup_subjectid s) ∧
    fixup_subjectid "sid30" = "sid000030" ∧ fixup_subjectid "sid0030" = "sid000030" ∧
    fixup_subjectid "SID30" = "sid000030" ∧ fixup_subjectid "sid000030" = "sid000030" ∧
    fixup_subjectid "abra" = "abra" := by
  refine ⟨?_, by decide, by decide, by decide, by decide, by decide⟩
  intro s h
  cases hm : sidMatch (s.toList.map lowerChar) with
  | some n =>
    have h1 : fixup_subjectid s = "sid" ++ fmtSixDigit n := by
      simp only [fixup_subjectid]
      rw [hm]
    rw [h1]
    exact fixup_subjectid_sid_form n
  | none =>
    have hstrip : sidMatch (stripSeps (s.toList.map lowerChar)) = none := by
      rcases h with h | h
      · exact absurd hm h
      · exact h
    have h1 : fixup_subjectid s = (stripSeps (s.toList.map lowerChar)).asString := by
      simp only [fixup_subjectid]
      rw [hm]
    rw [h1]
    have hmap : ((stripSeps (s.toList.map lowerChar)).asString).toList.map lowerChar
        = stripSeps (s.toList.map lowerChar) := by
      show (stripSeps (s.toList.map lowerChar)).map lowerChar = _
      rw [stripSeps_map_lowerChar, map_lowerChar_idem]
    simp only [fixup_subjectid]
    rw [hmap, hstrip]
    show (stripSeps (stripSeps (s.toList.map lowerChar))).asString = _
    rw [stripSeps_idem]

/-- C6 witness: the amended idempotence theorem applied at `"sid30"`. -/
theorem c6_witness :
    fixup_subjectid (fixup_subjectid "sid30") = fixup_subjectid "sid30" :=
  c6_fixup_subjectid_idempotent_amended.1 "sid30" (Or.inl (by decide))

/-- C8: a protocol name whose content before the first `__` separator is
exactly the single token `bids` makes `parse_dbic_protocol_name` raise
`IndexError` (indexing the emptied token list) instead of returning the
empty not-classifiable result. -/
theorem c8_bids_only_raises (inp : String) (h : cutDoubleUnderscore inp = "bids") :
    parse_dbic_protocol_name inp = .error .indexError := by
  unfold parse_dbic_protocol_name
  rw [h]
  decide

/-- C8 witness: the theorem applied to `"bids__xyz"`. -/
theorem c8_witness :
    cutDoubleUnderscore "bids__xyz" = "bids" ∧
    parse_dbic_protocol_name "bids__xyz" = .error .indexError :=
  ⟨by decide, c8_bids_only_raises "bids__xyz" (by decide)⟩

/-- C10: in the token loop of `parse_dbic_protocol_name`, a bare
recognised key (no hyphen, no trailing `+`/`=` sigil) is stored with the
literal string value "None" under its renamed key, rather than being
rejected or left absent; in particular `"func_task"` parses to seqtype
func with task = "None". -/
theorem c10_bare_key_stores_none_string :
    (∀ (acc : ParsedProtocol × List (List Char)) (k : String),
      k ∈ (["ses", "run", "task", "acq"] : List String) →
      processToken acc k.toList =
        .ok (regdSet acc.1 (if k = "ses" then "session" else k) "None", acc.2)) ∧
    parse_dbic_protocol_name "func_task" =
      .ok { seqtype := some "func", task := some "None" } := by
  constructor
  · intro acc k hk
    fin_cases hk <;> rfl
  · decide

/-- C10 witness: the theorem applied at the empty dict and the bare key
`task`. -/
theorem c10_witness :
    processToken (({} : ParsedProtocol), ([] : List (List Char))) "task".toList =
      .ok (regdSet {} "task" "None", []) :=
  c10_bare_key_stores_none_string.1 ({}, []) "task" (by decide)

/-- C5: starting from an unset run counter, the tokens `+`, `+`, `=`, `3`
applied in sequence (on series with no fieldmap pairing in effect) render
the run labels run-01, run-02, run-02 and run-03: the second and third
series share one naming-template key. -/
theorem c5_run_counter_scenario :
    infotodict (fun _ => "") runCounterBatch =
      .ok ([({ path := "{bids_subject_session_dir}/func/{bids_subject_session_prefix}_run-01_bold",
               outtype := ["nii.gz", "dicom"], ann_classes := none }, ["01-f"]),
            ({ path := "{bids_subject_session_dir}/func/{bids_subject_session_prefix}_run-02_bold",
               outtype := ["nii.gz", "dicom"], ann_classes := none }, ["02-f", "03-f"]),
            ({ path := "{bids_subject_session_dir}/func/{bids_subject_session_prefix}_run-03_bold",
               outtype := ["nii.gz", "dicom"], ann_classes := none }, ["04-f"])],
           [], []) := by
  decide

/-- C7 (counterexample): parsing is not invariant under permutation of the
tokens after the first: permuting the two leftover annotation tokens
changes the joined `bids` annotation field. -/
theorem c7_counterexample :
    (["xx", "yy"] : List String).Perm ["yy", "xx"] ∧
    parse_dbic_protocol_name "func-pace_xx_yy" =
      .ok { seqtype := some "func", seqtype_label := some "pace", bids := some "xx_yy" } ∧
    parse_dbic_protocol_name "func-pace_yy_xx" =
      .ok { seqtype := some "func", seqtype_label := some "pace", bids := some "yy_xx" } ∧
    parse_dbic_protocol_name "func-pace_xx_yy" ≠ parse_dbic_protocol_name "func-pace_yy_xx" :=
  ⟨List.Perm.swap "yy" "xx" [], by decide, by decide, by decide⟩

set_option maxRecDepth 8000 in
/-- C7 (amended): for the specification's example the reordering
invariance does hold: every permutation of the five tokens following
`func-pace` parses to the same result, as do the two tagged variants with
a `__therest` suffix listed by the specification. -/
theorem c7_reordering_example_amended :
    (∀ p : List String, p.Perm c7_tokens →
      parse_dbic_protocol_name (strJoin "_" ("func-pace" :: p)) = .ok c7_expected) ∧
    parse_dbic_protocol_name "bids_func-pace_ses-1_task-boo_acq-bu_bids-please_run-2__therest" =
      .ok c7_expected ∧
    parse_dbic_protocol_name "bids_func-pace_ses-1_run-2_task-boo_acq-bu_bids-please__therest" =
      .ok c7_expected := by
  refine ⟨?_, by decide, by decide⟩
  have hall : ∀ p ∈ c7_tokens.permutations',
      parse_dbic_protocol_name (strJoin "_" ("func-pace" :: p)) = .ok c7_expected := by
    decide
  intro p hp
  exact hall p (List.mem_permutations'.mpr hp)

/-- C7 witness: the amended theorem applied to one concrete reordering. -/
theorem c7_witness :
    parse_dbic_protocol_name
        (strJoin "_" ("func-pace" :: ["run-2", "bids-please", "acq-bu", "task-boo", "ses-1"])) =
      .ok c7_expected :=
  c7_reordering_example_amended.1 _
    (List.mem_permutations'.mp (by decide))

/-- C3: on a `+` run token carried by a series whose image-type indicator
is `P` (phase), the run counter is left unchanged when the previous
non-derived series' indicator was `M` (magnitude); if the previous
indicator was not magnitude, the transition raises `RuntimeError`, except
when the series' study-description hash equals the recognised legacy hash
`9d148e2a05f782273f6343507733309d`, in which case the run is incremented
instead. -/
theorem c3_phase_plus_run_token (md5sum : String → String) (prev : Option String)
    (sd : String) (cr : Nat) :
    (prev = some "M" →
      run_token_update md5sum "P" prev sd cr "+" =
        .ok (cr, some ("run-" ++ fmtTwoDigit cr))) ∧
    (prev ≠ some "M" → md5sum sd = "9d148e2a05f782273f6343507733309d" →
      run_token_update md5sum "P" prev sd cr "+" =
        .ok (cr + 1, some ("run-" ++ fmtTwoDigit (cr + 1)))) ∧
    (prev ≠ some "M" → md5sum sd ≠ "9d148e2a05f782273f6343507733309d" →
      run_token_update md5sum "P" prev sd cr "+" = .error .runtimeError) := by
  refine ⟨?_, ?_, ?_⟩
  · intro h
    simp [run_token_update, h]
  · intro h1 h2
    simp [run_token_update, h1, h2]
  · intro h1 h2
    simp [run_token_update, h1, h2]

/-- C3 witness: the three cases of the theorem at concrete inputs. -/
theorem c3_witness :
    run_token_update (fun _ => "") "P" (some "M") "x" 2 "+" = .ok (2, some "run-02") ∧
    run_token_update (fun _ => "9d148e2a05f782273f6343507733309d") "P" none "x" 2 "+" =
      .ok (3, some "run-03") ∧
    run_token_update (fun _ => "") "P" none "x" 2 "+" = .error .runtimeError := by
  refine ⟨?_, ?_, ?_⟩
  · have h := (c3_phase_plus_run_token (fun _ => "") (some "M") "x" 2).1 rfl
    rw [show "run-" ++ fmtTwoDigit 2 = "run-02" from by decide] at h
    exact h
  · have h := (c3_phase_plus_run_token (fun _ => "9d148e2a05f782273f6343507733309d")
      none "x" 2).2.1 (by decide) (by decide)
    rw [show "run-" ++ fmtTwoDigit 3 = "run-03" from by decide] at h
    exact h
  · exact (c3_phase_plus_run_token (fun _ => "") none "x" 2).2.2 (by decide) (by decide)

/-- The parse result dict is never Python-falsy once `seqtype` is set. -/
theorem regdIsEmpty_of_seqtype {r : ParsedProtocol} {x : String} (h : r.seqtype = some x) :
    regdIsEmpty r = false := by
  simp [regdIsEmpty, h]

/-- C9: in the classifier, an fmap series without an explicit seqtype
label selects its default label through a dict defined only for the
image-type indicators `M` and `P`; any other indicator raises `KeyError`
and the whole batch's classification aborts instead of producing a key for
that series. -/
theorem c9_fmap_default_label_aborts (md5sum : String → String) (st : ClassState)
    (s : SeqInfo) (t : String) (regd : ParsedProtocol)
    (hd : s.is_derived = false)
    (ht : s.image_type.get? 2 = some t)
    (hM : t ≠ "M") (hP : t ≠ "P")
    (hp : parse_dbic_protocol_name (tuneProtocolName s.protocol_name) = .ok regd)
    (hsq : regd.seqtype = some "fmap")
    (hlb : regd.seqtype_label = none) :
    infotodict_step md5sum st s = .error .keyError ∧
    ∀ rest, infotodict_loop md5sum st (s :: rest) = .error .keyError := by
  have hstep : infotodict_step md5sum st s = .error .keyError := by
    simp only [infotodict_step, hd, Bool.false_eq_true, if_false, ht, hp]
    by_cases hmip : startsWithStr "MIP" t = true
    · simp [hmip, regdIsEmpty, hsq, hlb, fmapDefaultLabel, hM, hP, Except.map]
    · simp [hmip, regdIsEmpty, hsq, hlb, fmapDefaultLabel, hM, hP, Except.map]
  refine ⟨hstep, ?_⟩
  intro rest
  simp only [infotodict_loop, hstep]

/-- C9 witness: the theorem at a concrete fmap series whose image-type
indicator is `FMRI`. -/
theorem c9_witness :
    infotodict_step (fun _ => "") initClassState c9_series = .error .keyError ∧
    infotodict_loop (fun _ => "") initClassState [c9_series] = .error .keyError := by
  have h := c9_fmap_default_label_aborts (fun _ => "") initClassState c9_series "FMRI"
    { seqtype := some "fmap", acq := some "g" }
    (by decide) (by decide) (by decide) (by decide) (by decide) (by decide) (by decide)
  exact ⟨h.1, h.2 []⟩

/-- C4 (amended): a non-derived series whose tuned protocol name parses to
the empty (not classifiable) result is recorded in the unrecognised list,
gets no naming-template key, and processing continues with the next series
in unchanged state (apart from the image-type tracker), provided the
series' image-type indicator does not start with `MIP`; for `MIP_*`
indicators the advisory acq injection makes the parse result non-empty and
classification aborts instead. -/
theorem c4_unrecognized_protocol_skipped_amended (md5sum : String → String)
    (st : ClassState) (s : SeqInfo) (t : String)
    (hd : s.is_derived = false)
    (ht : s.image_type.get? 2 = some t)
    (hmip : startsWithStr "MIP" t = false)
    (hp : parse_dbic_protocol_name (tuneProtocolName s.protocol_name) = .ok {}) :
    infotodict_step md5sum st s =
      .ok { st with skipped_unknown := st.skipped_unknown ++ [s.series_id],
                    image_data_type := some t } ∧
    ∀ rest, infotodict_loop md5sum st (s :: rest) =
      infotodict_loop md5sum
        { st with skipped_unknown := st.skipped_unknown ++ [s.series_id],
                  image_data_type := some t } rest := by
  have hstep : infotodict_step md5sum st s =
      .ok { st with skipped_unknown := st.skipped_unknown ++ [s.series_id],
                    image_data_type := some t } := by
    simp only [infotodict_step, hd, Bool.false_eq_true, if_false, ht, hp, hmip]
    rfl
  refine ⟨hstep, ?_⟩
  intro rest
  simp only [infotodict_loop, hstep]

/-- C4 (counterexample): with image-type indicator `MIP_SAG` and a protocol
name that parses to the empty result, the classifier does not record the
series as unrecognised: the acq injection makes the dict non-empty and the
`seqtype` pop raises `KeyError`, aborting the whole batch. -/
theorem c4_counterexample :
    parse_dbic_protocol_name (tuneProtocolName c4_series.protocol_name) = .ok {} ∧
    c4_series.is_derived = false ∧
    c4_series.image_type.get? 2 = some "MIP_SAG" ∧
    infotodict (fun _ => "") [c4_series] = .error .keyError := by
  refine ⟨by decide, by decide, by decide, by decide⟩

/-- C4 witness: the amended theorem at a concrete non-MIP series. -/
theorem c4_witness :
    infotodict_step (fun _ => "") initClassState (mkSeries "05-x" "somethingweird") =
      .ok { initClassState with skipped_unknown := ["05-x"], image_data_type := some "FMRI" } :=
  (c4_unrecognized_protocol_skipped_amended (fun _ => "") initClassState
    (mkSeries "05-x" "somethingweird") "FMRI"
    (by decide) (by decide) (by decide) (by decide)).1

/-- If every non-derived series' protocol name parses with an absent
session value, the collected marker list is all-`none`. -/
theorem collect_ses_markers_all_none (sis : List SeqInfo)
    (h : ∀ s ∈ sis, s.is_derived = false →
      ∃ regd, parse_dbic_protocol_name s.protocol_name = .ok regd ∧ regd.session = none) :
    ∀ l, collect_ses_markers sis = .ok l → ∀ x ∈ l, x = none := by
  induction sis with
  | nil =>
    intro l hl x hx
    simp only [collect_ses_markers] at hl
    injection hl with hl2
    subst hl2
    cases hx
  | cons s rest ih =>
    intro l hl x hx
    unfold collect_ses_markers at hl
    cases hd : s.is_derived with
    | true =>
      rw [if_pos (by rw [hd])] at hl
      exact ih (fun q hq hq2 => h q (List.mem_cons_of_mem s hq) hq2) l hl x hx
    | false =>
      rw [if_neg (by rw [hd]; exact Bool.false_ne_true)] at hl
      obtain ⟨regd, hpar, hsess⟩ := h s (List.mem_cons_self s rest) hd
      rw [hpar] at hl
      cases hrest : collect_ses_markers rest with
      | error e => rw [hrest] at hl; cases hl
      | ok l2 =>
        rw [hrest] at hl
        injection hl with hl2
        subst hl2
        rcases List.mem_cons.mp hx with hx1 | hx2
        · exact hx1.trans hsess
        · exact ih (fun q hq hq2 => h q (List.mem_cons_of_mem s hq) hq2) l2 hrest x hx2

/-- A value returned by `get_unique` is one of the attribute values of the
batch. -/
theorem get_unique_mem {sis : List SeqInfo} {f : SeqInfo → String} {v : String}
    (h : get_unique sis f = .ok v) : ∃ s ∈ sis, f s = v := by
  unfold get_unique at h
  cases hd : (sis.map f).dedup with
  | nil => rw [hd] at h; cases h
  | cons a t =>
    cases t with
    | nil =>
      rw [hd] at h
      have h2 : (Except.ok a : Except PyErr String) = .ok v := h
      injection h2 with hav
      have hm1 : a ∈ (sis.map f).dedup := by rw [hd]; exact List.mem_cons_self a []
      obtain ⟨s, hs, hfs⟩ := List.mem_map.mp (List.mem_dedup.mp hm1)
      exact ⟨s, hs, hfs.trans hav⟩
    | cons b t2 =>
      rw [hd] at h
      have h2 : (Except.error .assertionError : Except PyErr String) = .ok v := h
      cases h2

/-- C1 (amended): when no non-derived series' parsed protocol name
contains a session token, `infotoids` returns an identity record with an
absent session, unless the batch's study-description hash is the
recognised legacy hash `9d148e2a05f782273f6343507733309d`, which forces
session `siemens1`.  The materialised (Python 2) marker list guarantees
the empty collection never yields the default session label. -/
theorem c1_session_absent_amended (md5sum : String → String) (seqinfos : List SeqInfo)
    (outdir : String) (r : StudySessionInfo)
    (hns : ∀ s ∈ seqinfos, s.is_derived = false →
      ∃ regd, parse_dbic_protocol_name s.protocol_name = .ok regd ∧ regd.session = none)
    (hnl : ∀ s ∈ seqinfos, md5sum s.study_description ≠ "9d148e2a05f782273f6343507733309d")
    (hok : infotoids md5sum seqinfos outdir = .ok r) :
    r.session = none := by
  simp only [infotoids] at hok
  cases h1 : get_unique seqinfos (fun s => s.study_description) with
  | error e => rw [h1] at hok; cases hok
  | ok sd =>
    simp only [h1] at hok
    cases h2 : get_unique seqinfos (fun s => s.patient_id) with
    | error e => rw [h2] at hok; cases hok
    | ok pid =>
      simp only [h2] at hok
      cases h3 : collect_ses_markers seqinfos with
      | error e => rw [h3] at hok; cases hok
      | ok markers =>
        simp only [h3] at hok
        have hall := collect_ses_markers_all_none seqinfos hns markers h3
        have hfm : markers.filterMap id = [] := by
          rw [List.filterMap_eq_nil_iff]
          intro a ha
          exact hall a ha
        have hded : deduce_session (List.filter (fun v => v != "") (markers.filterMap id)) =
            .ok none := by
          rw [hfm]
          rfl
        simp only [hded] at hok
        have hsd : md5sum sd ≠ "9d148e2a05f782273f6343507733309d" := by
          obtain ⟨s, hs, hfs⟩ := get_unique_mem h1
          rw [← hfs]
          exact hnl s hs
        rw [if_neg hsd] at hok
        injection hok with hok2
        rw [← hok2]

/-- C1 (counterexample): a batch with no session tokens whose
study-description hash is the legacy hash receives session `siemens1`, not
an absent session, refuting the unconditional claim. -/
theorem c1_counterexample :
    parse_dbic_protocol_name (mkSeries "01-a" "func_task-x").protocol_name =
      .ok { seqtype := some "func", task := some "x" } ∧
    (mkSeries "01-a" "func_task-x").is_derived = false ∧
    infotoids (fun _ => "9d148e2a05f782273f6343507733309d")
        [mkSeries "01-a" "func_task-x"] "" =
      .ok { locator := "Hax/Study", session := some "siemens1", subject := "sid000030" } := by
  refine ⟨by decide, by decide, by decide⟩

/-- C1 witness: the amended theorem at a concrete sessionless batch with a
non-legacy hash. -/
theorem c1_witness :
    infotoids (fun _ => "") [mkSeries "01-a" "func_task-x"] "" =
      .ok { locator := "Hax/Study", session := none, subject := "sid000030" } ∧
    (StudySessionInfo.mk "Hax/Study" none "sid000030").session = none := by
  constructor
  · decide
  · exact c1_session_absent_amended (fun _ => "") [mkSeries "01-a" "func_task-x"] ""
      (StudySessionInfo.mk "Hax/Study" none "sid000030")
      (by
        intro s hs hd2
        rw [List.mem_singleton] at hs
        subst hs
        exact ⟨{ seqtype := some "func", task := some "x" }, by decide, rfl⟩)
      (by
        intro s hs
        show ("" : String) ≠ _
        decide)
      (by decide)

/-- C2 (code bug): a batch whose non-derived series carry two distinct
explicit session values and no sigils makes `infotoids` raise
`AssertionError` from `assert len(ses_markers) == 1`, immediately after
the code's own warning announces that processing will continue with the
first session. -/
theorem c2_multi_session_asserts :
    parse_dbic_protocol_name "func_ses-1_task-x" =
      .ok { seqtype := some "func", session := some "1", task := some "x" } ∧
    parse_dbic_protocol_name "func_ses-2_task-x" =
      .ok { seqtype := some "func", session := some "2", task := some "x" } ∧
    infotoids (fun _ => "")
        [mkSeries "01-a" "func_ses-1_task-x", mkSeries "02-b" "func_ses-2_task-x"] "" =
      .error .assertionError := by
  refine ⟨by decide, by decide, by decide⟩

end Heudiconv
